/-
Verification of the gpud poll-and-evaluate pipeline against its
natural-language specification.

The development shallowly embeds the Go code of the repository:
pure Go functions become Lean functions, Go `int`/`uint64` become
`Int`/`Nat`, Go maps keyed by error code become association lists in
insertion order (the Go code only inserts fresh keys, so keys stay
unique and iteration-order differences are irrelevant to the verdicts
proved here), and fallible functions return `Option`/`Except`.
Definitions whose Go source is not part of the extracted sources are
modelled from the specification text and marked as such in their doc
comments.
-/
import Mathlib

namespace Gpud

/-! ## InfiniBand data model

From `components/accelerator/nvidia/query/infiniband` (struct shapes as
used by `ibstat_test.go`): a card has a `Name` and a single `Port1`
with `State`, `PhysicalState` and an integer `Rate` in Gb/sec. -/

structure IBStatPort where
  State : String
  PhysicalState : String
  Rate : Int
  deriving DecidableEq, Repr

structure IBStatCard where
  Name : String
  Port1 : IBStatPort
  deriving DecidableEq, Repr

/-- The running state of the `CheckPortsAndRate` scan over the cards, in
input order: the count of cards with `State == "Active"`,
`PhysicalState == "LinkUp"` and `Rate >= atLeastRate`, together with the
names (in input order) of the cards with `PhysicalState == "Disabled"`
and `Rate >= atLeastRate`. -/
def cprScanStep (atLeastRate : Int) (acc : Nat × List String) (c : IBStatCard) :
    Nat × List String :=
  let acc1 :=
    if c.Port1.State = "Active" ∧ c.Port1.PhysicalState = "LinkUp" ∧
        atLeastRate ≤ c.Port1.Rate then
      (acc.1 + 1, acc.2)
    else acc
  if c.Port1.PhysicalState = "Disabled" ∧ atLeastRate ≤ c.Port1.Rate then
    (acc1.1, acc1.2 ++ [c.Name])
  else acc1

/-- Modelled from the spec: `IBStatCards.CheckPortsAndRate` of
`components/accelerator/nvidia/query/infiniband/ibstat.go`, whose Go
source is not among the extracted files (only its tests are).
Faithful to §4.4 of the spec: `atLeastPorts<=0` or `atLeastRate<=0`
trivially succeed; otherwise count cards with
`State=="Active" AND PhysicalState=="LinkUp" AND Rate>=atLeastRate`;
if the count reaches `atLeastPorts`, success (`none`); otherwise an
error message listing, when present, the `Disabled` cards whose rate
still qualifies. `none` stands for the Go `nil` error and `some msg`
for an error with text `msg`. -/
def CheckPortsAndRate (cards : List IBStatCard) (atLeastPorts atLeastRate : Int) :
    Option String :=
  if atLeastPorts ≤ 0 ∨ atLeastRate ≤ 0 then
    none
  else
    let scan := cards.foldl (cprScanStep atLeastRate) (0, [])
    if atLeastPorts ≤ (scan.1 : Int) then
      none
    else
      let base := "not enough LinkUp ports, only " ++ toString scan.1 ++
        " LinkUp out of " ++ toString cards.length ++
        ", expected at least " ++ toString atLeastPorts ++
        " ports and " ++ toString atLeastRate ++ " Gb/sec rate"
      if scan.2.isEmpty then
        some (base ++ "; some ports must be missing")
      else
        some (base ++ "; some ports might be down, " ++ toString scan.2.length ++
          " Disabled devices with Rate > " ++ toString atLeastRate ++
          " found (" ++ String.intercalate ", " scan.2 ++ ")")

/-- Declarative view: the predicate for a card that counts toward the
LinkUp tally at rate threshold `r`. -/
def qualifiesLinkUp (r : Int) (c : IBStatCard) : Prop :=
  c.Port1.State = "Active" ∧ c.Port1.PhysicalState = "LinkUp" ∧ r ≤ c.Port1.Rate

instance (r : Int) (c : IBStatCard) : Decidable (qualifiesLinkUp r c) :=
  inferInstanceAs (Decidable (_ = _ ∧ _ = _ ∧ _ ≤ _))

/-- Declarative view: the predicate for a card that is `Disabled` yet
would qualify by rate. -/
def disabledQualifying (r : Int) (c : IBStatCard) : Prop :=
  c.Port1.PhysicalState = "Disabled" ∧ r ≤ c.Port1.Rate

instance (r : Int) (c : IBStatCard) : Decidable (disabledQualifying r c) :=
  inferInstanceAs (Decidable (_ = _ ∧ _ ≤ _))

/-- The LinkUp tally, declaratively. -/
def linkUpCount (cards : List IBStatCard) (r : Int) : Nat :=
  (cards.filter (fun c => decide (qualifiesLinkUp r c))).length

/-- The names of the Disabled-but-qualifying cards, in input order,
declaratively. -/
def disabledNames (cards : List IBStatCard) (r : Int) : List String :=
  (cards.filter (fun c => decide (disabledQualifying r c))).map IBStatCard.Name

theorem cprScanStep_fst (r : Int) (acc : Nat × List String) (c : IBStatCard) :
    (cprScanStep r acc c).1 = acc.1 + (if qualifiesLinkUp r c then 1 else 0) := by
  unfold cprScanStep qualifiesLinkUp
  by_cases h1 : c.Port1.State = "Active" ∧ c.Port1.PhysicalState = "LinkUp" ∧ r ≤ c.Port1.Rate <;>
    by_cases h2 : c.Port1.PhysicalState = "Disabled" ∧ r ≤ c.Port1.Rate <;>
      simp [h1, h2]

theorem cprScanStep_snd (r : Int) (acc : Nat × List String) (c : IBStatCard) :
    (cprScanStep r acc c).2 = acc.2 ++ (if disabledQualifying r c then [c.Name] else []) := by
  unfold cprScanStep disabledQualifying
  by_cases h1 : c.Port1.State = "Active" ∧ c.Port1.PhysicalState = "LinkUp" ∧ r ≤ c.Port1.Rate <;>
    by_cases h2 : c.Port1.PhysicalState = "Disabled" ∧ r ≤ c.Port1.Rate <;>
      simp [h1, h2]

theorem cprScan_fst (r : Int) (cards : List IBStatCard) (acc : Nat × List String) :
    (cards.foldl (cprScanStep r) acc).1 = acc.1 + linkUpCount cards r := by
  induction cards generalizing acc with
  | nil => simp [linkUpCount]
  | cons c cs ih =>
      rw [List.foldl_cons, ih]
      rw [cprScanStep_fst]
      unfold linkUpCount
      by_cases h : qualifiesLinkUp r c <;> (simp [h, List.filter_cons]; try omega)

theorem cprScan_snd (r : Int) (cards : List IBStatCard) (acc : Nat × List String) :
    (cards.foldl (cprScanStep r) acc).2 = acc.2 ++ disabledNames cards r := by
  induction cards generalizing acc with
  | nil => simp [disabledNames]
  | cons c cs ih =>
      rw [List.foldl_cons, ih]
      rw [cprScanStep_snd]
      unfold disabledNames
      by_cases h : disabledQualifying r c <;> simp [h, List.filter_cons]

/-- The diagnostic text the claim describes, built declaratively from the
claim's own wording: the preamble with the LinkUp tally, then either the
Disabled-devices suffix (when some `Disabled` card still qualifies by
rate) or the missing-ports suffix. -/
def claimedFailureMsg (cards : List IBStatCard) (p r : Int) : String :=
  let preamble := "not enough LinkUp ports, only " ++ toString (linkUpCount cards r) ++
    " LinkUp out of " ++ toString cards.length ++
    ", expected at least " ++ toString p ++
    " ports and " ++ toString r ++ " Gb/sec rate"
  if disabledNames cards r = [] then
    preamble ++ "; some ports must be missing"
  else
    preamble ++ "; some ports might be down, " ++
      toString (disabledNames cards r).length ++
      " Disabled devices with Rate > " ++ toString r ++
      " found (" ++ String.intercalate ", " (disabledNames cards r) ++ ")"

/-- Sample from `TestValidateIBPorts` ("some ports down"): four cards,
two Active/LinkUp at rate 200 and two Down/Disabled at rate 200. -/
def sampleCardsSomeDown : List IBStatCard :=
  [⟨"mlx5_0", ⟨"Active", "LinkUp", 200⟩⟩,
   ⟨"mlx5_1", ⟨"Down", "Disabled", 200⟩⟩,
   ⟨"mlx5_2", ⟨"Active", "LinkUp", 200⟩⟩,
   ⟨"mlx5_3", ⟨"Down", "Disabled", 200⟩⟩]

/-- C1: for positive `atLeastPorts` and `atLeastRate`,
`CheckPortsAndRate` succeeds exactly when the number of cards with
`State == "Active"`, `PhysicalState == "LinkUp"` and
`Rate >= atLeastRate` is at least `atLeastPorts`; otherwise it returns
the "not enough LinkUp ports" error whose suffix lists, in input order,
the `Disabled` cards whose rate still qualifies, or reads
"some ports must be missing" when there is no such card. -/
theorem checkPortsAndRate_correct (cards : List IBStatCard) (p r : Int)
    (hp : 0 < p) (hr : 0 < r) :
    (CheckPortsAndRate cards p r = none ↔ p ≤ (linkUpCount cards r : Int)) ∧
    ((linkUpCount cards r : Int) < p →
      CheckPortsAndRate cards p r = some (claimedFailureMsg cards p r)) := by
  have hguard : ¬(p ≤ 0 ∨ r ≤ 0) := by omega
  unfold CheckPortsAndRate claimedFailureMsg
  simp only [hguard, if_false]
  rw [cprScan_fst, cprScan_snd]
  simp only [Nat.zero_add, List.nil_append]
  constructor
  · by_cases hcnt : p ≤ (linkUpCount cards r : Int)
    · simp [hcnt]
    · simp only [hcnt, if_false]
      by_cases hdis : disabledNames cards r = [] <;>
        simp [hdis, List.isEmpty_iff]
  · intro hlt
    have hcnt : ¬ p ≤ (linkUpCount cards r : Int) := by omega
    simp only [hcnt, if_false]
    by_cases hdis : disabledNames cards r = [] <;>
      simp [hdis, List.isEmpty_iff]

/-- C1 witness: the fourth `TestValidateIBPorts` vector produces exactly
the error text of spec scenario 5. -/
theorem checkPortsAndRate_correct_witness :
    (0 : Int) < 4 ∧ (0 : Int) < 200 ∧
    CheckPortsAndRate sampleCardsSomeDown 4 200 =
      some ("not enough LinkUp ports, only 2 LinkUp out of 4, " ++
        "expected at least 4 ports and 200 Gb/sec rate; " ++
        "some ports might be down, 2 Disabled devices with Rate > 200 found (mlx5_1, mlx5_3)") := by
  refine ⟨by decide, by decide, ?_⟩
  have h := (checkPortsAndRate_correct sampleCardsSomeDown 4 200
    (by decide) (by decide)).2 (by decide)
  rw [h]
  rfl

/-- C10: a non-positive `atLeastPorts` or a non-positive `atLeastRate`
makes `CheckPortsAndRate` succeed regardless of the cards. -/
theorem checkPortsAndRate_trivial_success (cards : List IBStatCard) (p r : Int)
    (h : p ≤ 0 ∨ r ≤ 0) :
    CheckPortsAndRate cards p r = none := by
  unfold CheckPortsAndRate
  simp [h]

/-- C10 witness: the "zero required ports" vector of
`TestValidateIBPorts`, and a negative-rate variant, both succeed. -/
theorem checkPortsAndRate_trivial_success_witness :
    CheckPortsAndRate sampleCardsSomeDown 0 200 = none ∧
    CheckPortsAndRate sampleCardsSomeDown 7 (-1) = none :=
  ⟨checkPortsAndRate_trivial_success sampleCardsSomeDown 0 200 (Or.inl (by decide)),
   checkPortsAndRate_trivial_success sampleCardsSomeDown 7 (-1) (Or.inr (by decide))⟩

/-! ## Structural ibstat validation (C2) -/

/-- The two broken-output classifications of `ValidateIbstatOutput`:
`ErrIbstatOutputBrokenStateDown` and
`ErrIbstatOutputBrokenPhysicalDisabled`. -/
inductive IbstatIssue where
  | stateDown
  | physicalDisabled
  deriving DecidableEq, Repr

/-- Modelled from the spec: `ValidateIbstatOutput` of
`components/accelerator/nvidia/query/infiniband/ibstat.go`, whose Go
source is not among the extracted files (only its tests are). Faithful
to §4.4 of the spec: "for each card, in input order, if
`State == "Down"` the whole sample is rejected with a 'broken: state
down' classification; else if `PhysicalState == "Disabled"` it is
rejected with a 'broken: physical disabled' classification; the first
offending card (in input order) determines the reported
classification." The text parsing that precedes this scan is out of
scope; the function is modelled on the parsed card list, ordered as the
`CA` blocks appear in the ibstat text. -/
def validateIbstatCards : List IBStatCard → Option IbstatIssue
  | [] => none
  | c :: rest =>
    if c.Port1.State = "Down" then some .stateDown
    else if c.Port1.PhysicalState = "Disabled" then some .physicalDisabled
    else validateIbstatCards rest

theorem validateIbstatCards_cons (c : IBStatCard) (rest : List IBStatCard) :
    validateIbstatCards (c :: rest) =
      if c.Port1.State = "Down" then some .stateDown
      else if c.Port1.PhysicalState = "Disabled" then some .physicalDisabled
      else validateIbstatCards rest := rfl

/-- A card that offends neither check. -/
def cardClean (c : IBStatCard) : Prop :=
  c.Port1.State ≠ "Down" ∧ c.Port1.PhysicalState ≠ "Disabled"

instance (c : IBStatCard) : Decidable (cardClean c) :=
  inferInstanceAs (Decidable (_ ∧ _))

theorem validateIbstatCards_eq_none_iff (cards : List IBStatCard) :
    validateIbstatCards cards = none ↔ ∀ c ∈ cards, cardClean c := by
  induction cards with
  | nil => simp [validateIbstatCards]
  | cons c rest ih =>
      by_cases h1 : c.Port1.State = "Down"
      · simp [validateIbstatCards, h1, cardClean]
      · by_cases h2 : c.Port1.PhysicalState = "Disabled"
        · simp [validateIbstatCards, h1, h2, cardClean]
        · simp [validateIbstatCards, h1, h2, cardClean, ih]

theorem validateIbstatCards_skip_clean (pre rest : List IBStatCard)
    (h : ∀ d ∈ pre, cardClean d) :
    validateIbstatCards (pre ++ rest) = validateIbstatCards rest := by
  induction pre with
  | nil => simp
  | cons d ds ih =>
      have hd := h d (by simp)
      rw [List.cons_append, validateIbstatCards_cons]
      simp only [hd.1, hd.2, if_false]
      exact ih (fun e he => h e (by simp [he]))

/-- The mixed sample the claim cannot describe consistently: the first
card is `Active`/`Disabled`, the second is `Down`. -/
def sampleCardsMixed : List IBStatCard :=
  [⟨"mlx5_0", ⟨"Active", "Disabled", 40⟩⟩,
   ⟨"mlx5_1", ⟨"Down", "Disabled", 40⟩⟩]

/-- C2 counterexample: `sampleCardsMixed` contains a card whose
`State` is `"Down"`, yet the validation does not report the state-down
classification (the first offending card, which is merely `Disabled`,
wins), refuting "returns the state-down classification whenever some
card's Port State is 'Down', regardless of the other cards' health". -/
theorem validateIbstatCards_down_not_first_counterexample :
    (∃ c ∈ sampleCardsMixed, c.Port1.State = "Down") ∧
    validateIbstatCards sampleCardsMixed ≠ some .stateDown ∧
    validateIbstatCards sampleCardsMixed = some .physicalDisabled := by
  decide

/-- C2 (amended): the first offending card in input order determines
the classification: scanning the cards in order, a `State == "Down"`
card reached before any other offender yields the state-down
classification, and a `PhysicalState == "Disabled"` (but not `Down`)
card reached first yields the physical-disabled classification; a
sample with no `Down` card but some `Disabled` card is always rejected
as physical-disabled, and an all-clean sample yields no error. A `Down`
card yields the state-down classification only when no `Disabled`
non-`Down` card precedes it. -/
theorem validateIbstatCards_correct :
    (∀ cards : List IBStatCard,
      validateIbstatCards cards = none ↔ ∀ c ∈ cards, cardClean c) ∧
    (∀ (pre : List IBStatCard) (c : IBStatCard) (post : List IBStatCard),
      (∀ d ∈ pre, cardClean d) → c.Port1.State = "Down" →
      validateIbstatCards (pre ++ c :: post) = some .stateDown) ∧
    (∀ (pre : List IBStatCard) (c : IBStatCard) (post : List IBStatCard),
      (∀ d ∈ pre, cardClean d) → c.Port1.State ≠ "Down" →
      c.Port1.PhysicalState = "Disabled" →
      validateIbstatCards (pre ++ c :: post) = some .physicalDisabled) ∧
    (∀ cards : List IBStatCard,
      (∀ c ∈ cards, c.Port1.State ≠ "Down") →
      (∃ c ∈ cards, c.Port1.PhysicalState = "Disabled") →
      validateIbstatCards cards = some .physicalDisabled) := by
  refine ⟨validateIbstatCards_eq_none_iff, ?_, ?_, ?_⟩
  · intro pre c post hpre hc
    rw [validateIbstatCards_skip_clean pre _ hpre, validateIbstatCards_cons]
    simp [hc]
  · intro pre c post hpre hc1 hc2
    rw [validateIbstatCards_skip_clean pre _ hpre, validateIbstatCards_cons]
    simp [hc1, hc2]
  · intro cards hnodown hdis
    induction cards with
    | nil => simp at hdis
    | cons c rest ih =>
        have hc1 : c.Port1.State ≠ "Down" := hnodown c (by simp)
        by_cases hc2 : c.Port1.PhysicalState = "Disabled"
        · rw [validateIbstatCards_cons]
          simp [hc1, hc2]
        · rw [validateIbstatCards_cons]
          simp only [hc1, hc2, if_false]
          refine ih (fun d hd => hnodown d (by simp [hd])) ?_
          rcases hdis with ⟨d, hd, hdis⟩
          rcases List.mem_cons.mp hd with h | h
          · exact absurd (h ▸ hdis) hc2
          · exact ⟨d, h, hdis⟩

/-- C2 witness: the two single-card vectors of the
`ValidateIbstatOutput` tests (a `Down`/`Disabled` card is state-down, an
`Active`/`Disabled` card is physical-disabled) and the all-clean
two-card vector. -/
theorem validateIbstatCards_correct_witness :
    validateIbstatCards [⟨"mlx5_11", ⟨"Down", "Disabled", 40⟩⟩] = some .stateDown ∧
    validateIbstatCards [⟨"mlx5_11", ⟨"Active", "Disabled", 40⟩⟩] = some .physicalDisabled ∧
    validateIbstatCards
      [⟨"mlx5_1", ⟨"Active", "LinkUp", 100⟩⟩, ⟨"mlx5_10", ⟨"Active", "LinkUp", 400⟩⟩] = none := by
  refine ⟨?_, ?_, ?_⟩
  · exact validateIbstatCards_correct.2.1 [] ⟨"mlx5_11", ⟨"Down", "Disabled", 40⟩⟩ []
      (by intro d hd; simp at hd) (by decide)
  · exact validateIbstatCards_correct.2.2.1 [] ⟨"mlx5_11", ⟨"Active", "Disabled", 40⟩⟩ []
      (by intro d hd; simp at hd) (by decide) (by decide)
  · exact (validateIbstatCards_correct.1 _).mpr (by decide)


/-! ## Xid multi-source error correlation (C4, C5)

Shallow embedding of `Output.Evaluate` from the `xid` component
(`component.go`).  The Go `map[uint64]XidError` is represented as an
association list in insertion order: `Evaluate` only ever inserts a key
it has just checked to be absent, so the keys are unique and the two
map folds of the Go code (the healthy scan and the criticals
collection) are order-independent. -/

/-- `nvidia_query_xid.Detail` as used by `Evaluate` through an NVML
event: its description, opaque suggested actions, and the
agent-assigned criticality flag. -/
structure NVMLXidDetail where
  Description : String
  SuggestedActions : Option String
  deriving DecidableEq, Repr

/-- `nvidia_query_nvml.XidEvent` as used by `Evaluate`. -/
structure NVMLXidEvent where
  Xid : Nat
  DeviceUUID : String
  Detail : Option NVMLXidDetail
  XidCriticalErrorMarkedByNVML : Bool
  XidCriticalErrorMarkedByGPUd : Bool
  deriving DecidableEq, Repr

/-- The fields of `nvidia_query_xid.DmesgError.Detail` used by
`Evaluate`. -/
structure DmesgXidDetail where
  XID : Nat
  CriticalErrorMarkedByGPUd : Bool
  deriving DecidableEq, Repr

/-- `nvidia_query_xid.DmesgError` as used by `Evaluate`. -/
structure DmesgError where
  DetailFound : Bool
  Detail : Option DmesgXidDetail
  deriving DecidableEq, Repr

/-- The `xid` component `Output`. -/
structure XidOutput where
  DmesgErrors : List DmesgError
  NVMLXidEvent : Option NVMLXidEvent
  deriving DecidableEq, Repr

/-- A merged error record (`XidError`). -/
structure XidError where
  DataSource : String
  DeviceUUID : String
  Xid : Nat
  XidDescription : String
  XidCriticalErrorMarkedByNVML : Bool
  XidCriticalErrorMarkedByGPUd : Bool
  SuggestedActions : Option String
  deriving DecidableEq, Repr

/-- The evaluation `Reason`: its messages and the merged record map
(keyed by Xid code, kept in insertion order). -/
structure XidReason where
  Messages : List String
  Errors : List (Nat × XidError)
  deriving DecidableEq, Repr

/-- `"(critical)"` / `"(non-critical)"` as chosen in `Evaluate`. -/
def criticalMsg (b : Bool) : String :=
  if b then "(critical)" else "(non-critical)"

/-- The record `Evaluate` builds from the NVML Xid event
(`DataSource: "nvml"`). -/
def nvmlXidError (ev : NVMLXidEvent) : XidError :=
  { DataSource := "nvml"
    DeviceUUID := ev.DeviceUUID
    Xid := ev.Xid
    XidDescription := match ev.Detail with
      | some d => d.Description
      | none => ""
    XidCriticalErrorMarkedByNVML := ev.XidCriticalErrorMarkedByNVML
    XidCriticalErrorMarkedByGPUd := ev.XidCriticalErrorMarkedByGPUd
    SuggestedActions := match ev.Detail with
      | some d => d.SuggestedActions
      | none => none }

/-- The record `Evaluate` builds from a dmesg-scraped error
(`DataSource: "dmesg"`, no NVML-related info). -/
def dmesgXidError (d : DmesgXidDetail) : XidError :=
  { DataSource := "dmesg"
    DeviceUUID := ""
    Xid := d.XID
    XidDescription := ""
    XidCriticalErrorMarkedByNVML := false
    XidCriticalErrorMarkedByGPUd := d.CriticalErrorMarkedByGPUd
    SuggestedActions := none }

/-- One iteration of the dmesg loop of `Evaluate`: skip the entry when
it has no detail or the detail was not found, skip it when its code is
already present in the merged map (already detected by the NVML
wait/watch API), and otherwise append its record and its message. -/
def dmesgStep (acc : List (Nat × XidError) × List String) (de : DmesgError) :
    List (Nat × XidError) × List String :=
  match de.Detail with
  | none => acc
  | some d =>
    if !de.DetailFound then acc
    else if (acc.1.lookup d.XID).isSome then acc
    else (acc.1 ++ [(d.XID, dmesgXidError d)],
      acc.2 ++ ["dmesg xid " ++ toString d.XID ++ " event " ++
        criticalMsg d.CriticalErrorMarkedByGPUd])

/-- `Output.Evaluate(onlyGPUdCritical)`: returns the reason and the
healthy verdict (the Go `error` result is always `nil` and is omitted).
With no dmesg errors and no NVML event detail, the output is healthy
with "no xid error found"; otherwise the NVML event (when present) is
recorded first, then the dmesg errors are merged in input order keyed
by code, the verdict is healthy iff no merged record is marked critical
by GPUd, and `onlyGPUdCritical` restricts the reported record map to
the critical records. -/
def evaluateXidOutput (o : XidOutput) (onlyGPUdCritical : Bool) :
    XidReason × Bool :=
  if o.DmesgErrors = [] ∧ (o.NVMLXidEvent = none ∨
      (o.NVMLXidEvent.bind NVMLXidEvent.Detail) = none) then
    ({ Messages := ["no xid error found"], Errors := [] }, true)
  else
    let init : List (Nat × XidError) × List String :=
      match o.NVMLXidEvent with
      | none => ([], [])
      | some ev =>
        ([(ev.Xid, nvmlXidError ev)],
         ["nvml xid " ++ toString ev.Xid ++ " event " ++
           criticalMsg ev.XidCriticalErrorMarkedByGPUd])
    let merged := o.DmesgErrors.foldl dmesgStep init
    let healthy := merged.1.all (fun kv => !kv.2.XidCriticalErrorMarkedByGPUd)
    let criticals := merged.1.filter (fun kv => kv.2.XidCriticalErrorMarkedByGPUd)
    ({ Messages := merged.2,
       Errors := if onlyGPUdCritical then criticals else merged.1 },
     healthy)


theorem lookup_append_left {α β : Type} [BEq α] (k : α) (l1 l2 : List (α × β))
    (h : (l1.lookup k).isSome) : (l1 ++ l2).lookup k = l1.lookup k := by
  induction l1 with
  | nil => simp at h
  | cons p t ih =>
      rcases p with ⟨a, v⟩
      rw [List.cons_append]
      simp only [List.lookup] at h ⊢
      cases hk : k == a
      · simp only [hk] at h ⊢
        exact ih h
      · simp [hk]

theorem dmesgStep_lookup_preserved (k : Nat) (v : XidError)
    (acc : List (Nat × XidError) × List String) (de : DmesgError)
    (h : acc.1.lookup k = some v) : ((dmesgStep acc de).1.lookup k) = some v := by
  unfold dmesgStep
  cases hd : de.Detail with
  | none => exact h
  | some d =>
      by_cases hf : !de.DetailFound
      · simp [hf, h]
      · by_cases hl : ((acc.1.lookup d.XID).isSome : Prop)
        · simp [hf, hl, h]
        · simp only [hf, hl, if_false, Bool.false_eq_true]
          rw [lookup_append_left k _ _ (by simp [h])]
          exact h

theorem dmesgFold_lookup_preserved (k : Nat) (v : XidError)
    (l : List DmesgError) (acc : List (Nat × XidError) × List String)
    (h : acc.1.lookup k = some v) :
    ((l.foldl dmesgStep acc).1.lookup k) = some v := by
  induction l generalizing acc with
  | nil => exact h
  | cons de rest ih =>
      rw [List.foldl_cons]
      exact ih _ (dmesgStep_lookup_preserved k v acc de h)

theorem dmesgStep_skip_dup (acc : List (Nat × XidError) × List String)
    (de : DmesgError) (d : DmesgXidDetail) (hde : de.Detail = some d)
    (hl : (acc.1.lookup d.XID).isSome) : dmesgStep acc de = acc := by
  unfold dmesgStep
  rw [hde]
  by_cases hf : !de.DetailFound
  · simp [hf]
  · simp [hf, hl]

/-- C4: `Evaluate` reports healthy exactly when no merged record
carries the agent-assigned critical flag; `onlyGPUdCritical = true`
keeps the verdict and the messages of the `false` run and merely
filters the record map down to the critical records. -/
theorem evaluateXidOutput_healthy_iff (o : XidOutput) (b : Bool) :
    ((evaluateXidOutput o b).2 = true ↔
      ∀ kv ∈ (evaluateXidOutput o false).1.Errors,
        kv.2.XidCriticalErrorMarkedByGPUd = false) ∧
    (evaluateXidOutput o true).2 = (evaluateXidOutput o false).2 ∧
    (evaluateXidOutput o true).1.Errors =
      (evaluateXidOutput o false).1.Errors.filter
        (fun kv => kv.2.XidCriticalErrorMarkedByGPUd) ∧
    (evaluateXidOutput o b).1.Messages = (evaluateXidOutput o false).1.Messages := by
  unfold evaluateXidOutput
  by_cases hc : o.DmesgErrors = [] ∧ (o.NVMLXidEvent = none ∨
      (o.NVMLXidEvent.bind NVMLXidEvent.Detail) = none)
  · simp only [if_pos hc]
    simp
  · simp only [if_neg hc]
    refine ⟨?_, by simp, by simp, by simp⟩
    simp [List.all_eq_true]

/-- C4 witness: a single critical NVML event is unhealthy under both
views, and the critical filter keeps its record. -/
theorem evaluateXidOutput_healthy_iff_witness :
    (evaluateXidOutput ⟨[], some ⟨79, "gpu-0", some ⟨"GPU has fallen off the bus", none⟩,
        true, true⟩⟩ true).2 = false := by
  have h := (evaluateXidOutput_healthy_iff
    ⟨[], some ⟨79, "gpu-0", some ⟨"GPU has fallen off the bus", none⟩, true, true⟩⟩ true).1
  by_contra hcontra
  have : (evaluateXidOutput ⟨[], some ⟨79, "gpu-0",
      some ⟨"GPU has fallen off the bus", none⟩, true, true⟩⟩ true).2 = true := by
    revert hcontra
    cases (evaluateXidOutput ⟨[], some ⟨79, "gpu-0",
      some ⟨"GPU has fallen off the bus", none⟩, true, true⟩⟩ true).2 <;> simp
  have hall := h.mp this
  have hmem := hall (79, nvmlXidError ⟨79, "gpu-0",
    some ⟨"GPU has fallen off the bus", none⟩, true, true⟩) (by decide)
  simp [nvmlXidError] at hmem

/-- C5: when the NVML event and a dmesg error report the same Xid code,
the dmesg duplicate is suppressed: evaluation of the output with the
duplicate equals evaluation without it (same records, same messages,
same verdict), and the merged map holds the nvml-sourced record for
that code. -/
theorem evaluateXidOutput_nvml_wins (ev : NVMLXidEvent) (dd : NVMLXidDetail)
    (de : DmesgError) (d : DmesgXidDetail) (l1 l2 : List DmesgError) (b : Bool)
    (hev : ev.Detail = some dd) (hde : de.Detail = some d)
    (hxid : d.XID = ev.Xid) :
    evaluateXidOutput ⟨l1 ++ de :: l2, some ev⟩ b =
      evaluateXidOutput ⟨l1 ++ l2, some ev⟩ b ∧
    (evaluateXidOutput ⟨l1 ++ de :: l2, some ev⟩ false).1.Errors.lookup ev.Xid =
      some (nvmlXidError ev) ∧
    (nvmlXidError ev).DataSource = "nvml" := by
  have hinit : (([(ev.Xid, nvmlXidError ev)] : List (Nat × XidError)).lookup ev.Xid) =
      some (nvmlXidError ev) := by simp [List.lookup]
  have hcond1 : ¬((l1 ++ de :: l2 : List DmesgError) = [] ∧
      ((some ev : Option NVMLXidEvent) = none ∨
        ((some ev).bind NVMLXidEvent.Detail) = none)) := by
    simp [hev]
  have hcond2 : ¬((l1 ++ l2 : List DmesgError) = [] ∧
      ((some ev : Option NVMLXidEvent) = none ∨
        ((some ev).bind NVMLXidEvent.Detail) = none)) := by
    simp [hev]
  have hfold : ∀ rest : List DmesgError,
      (l1 ++ de :: rest).foldl dmesgStep
          ([(ev.Xid, nvmlXidError ev)],
            ["nvml xid " ++ toString ev.Xid ++ " event " ++
              criticalMsg ev.XidCriticalErrorMarkedByGPUd]) =
        (l1 ++ rest).foldl dmesgStep
          ([(ev.Xid, nvmlXidError ev)],
            ["nvml xid " ++ toString ev.Xid ++ " event " ++
              criticalMsg ev.XidCriticalErrorMarkedByGPUd]) := by
    intro rest
    rw [List.foldl_append, List.foldl_append, List.foldl_cons]
    congr 1
    apply dmesgStep_skip_dup _ de d hde
    rw [hxid]
    rw [dmesgFold_lookup_preserved ev.Xid (nvmlXidError ev) l1 _ hinit]
    rfl
  constructor
  · unfold evaluateXidOutput
    simp only [hcond1, hcond2, if_false]
    rw [hfold l2]
  · constructor
    · unfold evaluateXidOutput
      simp only [hcond1, if_false]
      exact dmesgFold_lookup_preserved ev.Xid (nvmlXidError ev) _ _ hinit
    · rfl

/-- C5 witness: Xid 79 reported by both NVML and dmesg collapses to the
single nvml-sourced record, with the dmesg entry contributing nothing. -/
theorem evaluateXidOutput_nvml_wins_witness :
    evaluateXidOutput ⟨[⟨true, some ⟨79, true⟩⟩],
        some ⟨79, "gpu-0", some ⟨"GPU has fallen off the bus", none⟩, true, true⟩⟩ false =
      evaluateXidOutput ⟨[],
        some ⟨79, "gpu-0", some ⟨"GPU has fallen off the bus", none⟩, true, true⟩⟩ false ∧
    (evaluateXidOutput ⟨[⟨true, some ⟨79, true⟩⟩],
        some ⟨79, "gpu-0", some ⟨"GPU has fallen off the bus", none⟩, true, true⟩⟩
        false).1.Errors.lookup 79 = some (nvmlXidError
          ⟨79, "gpu-0", some ⟨"GPU has fallen off the bus", none⟩, true, true⟩) := by
  have h := evaluateXidOutput_nvml_wins
    ⟨79, "gpu-0", some ⟨"GPU has fallen off the bus", none⟩, true, true⟩
    ⟨"GPU has fallen off the bus", none⟩ ⟨true, some ⟨79, true⟩⟩ ⟨79, true⟩
    [] [] false rfl rfl rfl
  exact ⟨h.1, h.2.1⟩


/-! ## Event-frequency (hardware-slowdown) evaluator (C3) -/

/-- The number of stored events whose timestamp falls within
`[now - window, now]` (the model of the event-store query the
hw-slowdown component performs over the lookback window). Times are in
minutes. -/
def eventsInWindow (window now : ℚ) (events : List ℚ) : Nat :=
  (events.filter (fun t => decide (now - window ≤ t ∧ t ≤ now))).length

/-- Modelled from the spec: the hardware-slowdown event-frequency
evaluator of the hw-slowdown component, whose Go source is not among
the extracted files (only `component_test.go` is). Faithful to §4.4 of
the spec: "count events with timestamp within `[now-window, now]`;
rate = count / window-in-minutes. Unhealthy iff `rate > threshold`. A
zero or negative window disables the check (always healthy)"; and §8:
"zero events ⇒ always healthy". The Go float64 arithmetic is
represented exactly over the rationals. Returns `true` for healthy. -/
def hwSlowdownHealthy (window threshold now : ℚ) (events : List ℚ) : Bool :=
  if window ≤ 0 then true
  else if eventsInWindow window now events = 0 then true
  else decide ((eventsInWindow window now events : ℚ) / window ≤ threshold)

/-- C3: with a positive window and at least one event in it, the
verdict is unhealthy exactly when `count / window > threshold`; a zero
or negative window is always healthy; zero events in the window is
always healthy; and a non-positive threshold with at least one event in
a positive window is always unhealthy. -/
theorem hwSlowdownHealthy_correct :
    (∀ window threshold now : ℚ, ∀ events : List ℚ, 0 < window →
      eventsInWindow window now events ≠ 0 →
      (hwSlowdownHealthy window threshold now events = false ↔
        threshold < (eventsInWindow window now events : ℚ) / window)) ∧
    (∀ window threshold now : ℚ, ∀ events : List ℚ, window ≤ 0 →
      hwSlowdownHealthy window threshold now events = true) ∧
    (∀ window threshold now : ℚ, ∀ events : List ℚ,
      eventsInWindow window now events = 0 →
      hwSlowdownHealthy window threshold now events = true) ∧
    (∀ window threshold now : ℚ, ∀ events : List ℚ, threshold ≤ 0 →
      0 < window → eventsInWindow window now events ≠ 0 →
      hwSlowdownHealthy window threshold now events = false) := by
  have hmain : ∀ window threshold now : ℚ, ∀ events : List ℚ, 0 < window →
      eventsInWindow window now events ≠ 0 →
      (hwSlowdownHealthy window threshold now events = false ↔
        threshold < (eventsInWindow window now events : ℚ) / window) := by
    intro window threshold now events hw hcnt
    have hw' : ¬ window ≤ 0 := not_le.mpr hw
    unfold hwSlowdownHealthy
    simp [hw', hcnt, not_le]
  refine ⟨hmain, ?_, ?_, ?_⟩
  · intro window threshold now events hw
    unfold hwSlowdownHealthy
    simp [hw]
  · intro window threshold now events hcnt
    unfold hwSlowdownHealthy
    by_cases hw : window ≤ 0 <;> simp [hw, hcnt]
  · intro window threshold now events hth hw hcnt
    refine (hmain window threshold now events hw hcnt).mpr ?_
    have hpos : (0 : ℚ) < (eventsInWindow window now events : ℚ) / window := by
      apply div_pos _ hw
      exact_mod_cast Nat.pos_of_ne_zero hcnt
    linarith

/-- C3 witness: spec scenario 6 — four events at -4, -3, -2, -1
minutes, a 5-minute window and a threshold of 0.6 events per minute
give a rate of 0.8 > 0.6, hence unhealthy; and the edge cases of
`TestComponentStatesEdgeCases` (zero window, negative window, negative
threshold with one event). -/
theorem hwSlowdownHealthy_correct_witness :
    hwSlowdownHealthy 5 (3/5) 0 [-4, -3, -2, -1] = false ∧
    hwSlowdownHealthy 0 (3/5) 0 [-5] = true ∧
    hwSlowdownHealthy (-10) (3/5) 0 [-5] = true ∧
    hwSlowdownHealthy 10 (3/5) 0 [] = true ∧
    hwSlowdownHealthy 10 (-3/5) 0 [-5] = false := by
  refine ⟨?_, ?_, ?_, ?_, ?_⟩
  · have hcnt : eventsInWindow 5 0 [-4, -3, -2, -1] = 4 := by
      norm_num [eventsInWindow, List.filter_cons]
    refine (hwSlowdownHealthy_correct.1 5 (3/5) 0 [-4, -3, -2, -1]
      (by norm_num) (by rw [hcnt]; norm_num)).mpr ?_
    rw [hcnt]
    norm_num
  · exact hwSlowdownHealthy_correct.2.1 0 (3/5) 0 [-5] (by norm_num)
  · exact hwSlowdownHealthy_correct.2.1 (-10) (3/5) 0 [-5] (by norm_num)
  · exact hwSlowdownHealthy_correct.2.2.1 10 (3/5) 0 []
      (by norm_num [eventsInWindow])
  · exact hwSlowdownHealthy_correct.2.2.2 10 (-3/5) 0 [-5] (by norm_num)
      (by norm_num) (by norm_num [eventsInWindow, List.filter_cons])


/-! ## Log-tail line matching (C6)

Shallow embedding of `(*Op).applyFilter` from the tail package. A
filter's compiled regular expression is abstracted as the predicate of
lines it matches; `ApplyOpts` compiles every filter before any line is
processed, so the per-line "regex has not been compiled" error path of
the Go code is unreachable here and the error result is omitted. A Go
`MatchFunc` returns the matched event name (its second result is
discarded by `applyFilter`), with `""` meaning no match. -/

/-- A select/reject filter: its name and the predicate of lines its
compiled pattern matches. The synthetic filter built from a legacy
match function has no pattern, hence a predicate that matches no
line. -/
structure LogFilter where
  Name : String
  matchLine : String → Bool

/-- The tail options consulted by `applyFilter`. -/
structure TailOp where
  matchFuncs : List (String → String)
  selectFilters : List LogFilter
  rejectFilters : List LogFilter

/-- The first non-empty event name produced by the legacy match
functions, tried in order. -/
def firstMatchFuncName (fs : List (String → String)) (line : String) : Option String :=
  fs.findSome? (fun f => let n := f line; if n = "" then none else some n)

/-- `(*Op).applyFilter`: whether the line should be included, and the
filter that matched it (if any). -/
def applyFilter (op : TailOp) (line : String) : Bool × Option LogFilter :=
  if op.matchFuncs.isEmpty && op.selectFilters.isEmpty && op.rejectFilters.isEmpty then
    -- no filters
    (true, none)
  else
    match firstMatchFuncName op.matchFuncs line with
    | some name => (true, some ⟨name, fun _ => false⟩)
    | none =>
      if op.selectFilters.isEmpty && op.rejectFilters.isEmpty then
        (false, none)
      else
        -- blacklist (e.g., error logs): first matching select filter wins
        let matchedFilter := op.selectFilters.find? (fun f => f.matchLine line)
        if !op.selectFilters.isEmpty && matchedFilter.isNone then
          (false, none)
        else if op.rejectFilters.any (fun f => f.matchLine line) then
          (false, none)
        else
          (true, matchedFilter)

theorem firstMatchFuncName_none (fs : List (String → String)) (line : String)
    (h : ∀ g ∈ fs, g line = "") : firstMatchFuncName fs line = none := by
  induction fs with
  | nil => rfl
  | cons f t ih =>
      unfold firstMatchFuncName at ih ⊢
      rw [List.findSome?_cons]
      simp only [h f (by simp)]
      exact ih (fun g hg => h g (by simp [hg]))

theorem firstMatchFuncName_first (pre : List (String → String))
    (f : String → String) (rest : List (String → String)) (line name : String)
    (hpre : ∀ g ∈ pre, g line = "") (hf : f line = name) (hne : name ≠ "") :
    firstMatchFuncName (pre ++ f :: rest) line = some name := by
  induction pre with
  | nil =>
      unfold firstMatchFuncName
      rw [List.nil_append, List.findSome?_cons]
      simp [hf, hne]
  | cons g t ih =>
      unfold firstMatchFuncName at ih ⊢
      rw [List.cons_append, List.findSome?_cons]
      simp only [hpre g (by simp)]
      exact ih (fun g' hg' => hpre g' (by simp [hg']))

/-- C6: per line, (1) the first legacy match function returning a
non-empty name keeps the line with a synthetic filter of that name;
(2) with no match functions and no select/reject filters the line
passes through unfiltered; (3) otherwise, once every match function has
declined, the line is kept iff some select filter matches (or none are
configured) and no reject filter matches. -/
theorem applyFilter_correct :
    (∀ (op : TailOp) (line : String) (pre : List (String → String))
        (f : String → String) (rest : List (String → String)) (name : String),
      op.matchFuncs = pre ++ f :: rest → (∀ g ∈ pre, g line = "") →
      f line = name → name ≠ "" →
      applyFilter op line = (true, some ⟨name, fun _ => false⟩)) ∧
    (∀ (op : TailOp) (line : String),
      op.matchFuncs = [] → op.selectFilters = [] → op.rejectFilters = [] →
      applyFilter op line = (true, none)) ∧
    (∀ (op : TailOp) (line : String),
      (∀ g ∈ op.matchFuncs, g line = "") →
      (op.selectFilters ≠ [] ∨ op.rejectFilters ≠ []) →
      ((applyFilter op line).1 = true ↔
        (op.selectFilters = [] ∨ ∃ f ∈ op.selectFilters, f.matchLine line = true) ∧
        ∀ f ∈ op.rejectFilters, f.matchLine line = false)) := by
  refine ⟨?_, ?_, ?_⟩
  · intro op line pre f rest name hsplit hpre hf hne
    have hfirst : firstMatchFuncName op.matchFuncs line = some name := by
      rw [hsplit]; exact firstMatchFuncName_first pre f rest line name hpre hf hne
    have hnonempty : op.matchFuncs.isEmpty = false := by
      rw [hsplit]; cases pre <;> rfl
    unfold applyFilter
    rw [hnonempty, hfirst]
    rfl
  · intro op line h1 h2 h3
    unfold applyFilter
    rw [h1, h2, h3]
    rfl
  · intro op line hmf hfilters
    have hfirst := firstMatchFuncName_none op.matchFuncs line hmf
    have hfe : (op.selectFilters.isEmpty && op.rejectFilters.isEmpty) = false := by
      rcases hfilters with h | h <;> simp [List.isEmpty_iff, h]
    have houter : (op.matchFuncs.isEmpty && op.selectFilters.isEmpty &&
        op.rejectFilters.isEmpty) = false := by
      rcases hfilters with h | h <;> simp [List.isEmpty_iff, h]
    have hres : (applyFilter op line).1 =
        ((op.selectFilters.isEmpty ||
            (op.selectFilters.find? (fun f => f.matchLine line)).isSome) &&
          !(op.rejectFilters.any (fun f => f.matchLine line))) := by
      unfold applyFilter
      rw [houter, hfirst]
      simp only [Bool.false_eq_true, if_false, hfe]
      cases hfind : op.selectFilters.find? (fun f => f.matchLine line) with
      | none =>
          cases hselE : op.selectFilters.isEmpty with
          | true =>
              cases hrej : op.rejectFilters.any (fun f => f.matchLine line) <;>
                simp [hrej]
          | false => simp
      | some mf =>
          cases hselE : op.selectFilters.isEmpty <;>
            (cases hrej : op.rejectFilters.any (fun f => f.matchLine line) <;>
              simp [hrej])
    rw [hres]
    constructor
    · intro h
      rcases Bool.and_eq_true_iff.mp h with ⟨h1, h2⟩
      constructor
      · rcases Bool.or_eq_true_iff.mp h1 with h1 | h1
        · exact Or.inl (List.isEmpty_iff.mp h1)
        · rcases Option.isSome_iff_exists.mp h1 with ⟨mf, hmf'⟩
          have hp := List.find?_some hmf'
          simp only [decide_eq_true_eq] at hp
          exact Or.inr ⟨mf, List.mem_of_find?_eq_some hmf', hp⟩
      · intro f hf
        have hany : op.rejectFilters.any (fun f => f.matchLine line) = false := by
          cases hx : op.rejectFilters.any (fun f => f.matchLine line)
          · rfl
          · rw [hx] at h2; exact absurd h2 (by decide)
        have hnof := List.any_eq_false.mp hany f hf
        cases hx : f.matchLine line
        · rfl
        · exact absurd hx hnof
    · rintro ⟨h1, h2⟩
      apply Bool.and_eq_true_iff.mpr
      refine ⟨?_, ?_⟩
      · rcases h1 with h1 | ⟨f, hf, hfm⟩
        · exact Bool.or_eq_true_iff.mpr (Or.inl (List.isEmpty_iff.mpr h1))
        · apply Bool.or_eq_true_iff.mpr
          right
          cases hfind : op.selectFilters.find? (fun f => f.matchLine line) with
          | some mf => rfl
          | none =>
              have := List.find?_eq_none.mp hfind f hf
              rw [hfm] at this
              exact absurd rfl this
      · cases hx : op.rejectFilters.any (fun f => f.matchLine line)
        · rfl
        · rcases List.any_eq_true.mp hx with ⟨f, hf, hfm⟩
          rw [h2 f hf] at hfm
          exact absurd hfm (by decide)


/-- C6 witness: a legacy match function keeps its line with a synthetic
filter of the returned name; an unconfigured matcher passes every line
through; a matching select filter keeps the line; a matching reject
filter drops it. -/
theorem applyFilter_correct_witness :
    applyFilter ⟨[fun l => if l = "NVRM: Xback" then "xid" else ""], [], []⟩
        "NVRM: Xback" = (true, some ⟨"xid", fun _ => false⟩) ∧
    applyFilter ⟨[], [], []⟩ "any line" = (true, none) ∧
    (applyFilter ⟨[], [⟨"oom", fun l => l == "Out of memory"⟩], []⟩
        "Out of memory").1 = true ∧
    (applyFilter ⟨[], [], [⟨"healthy", fun l => l == "all good"⟩]⟩
        "all good").1 = false := by
  refine ⟨?_, ?_, ?_, ?_⟩
  · exact applyFilter_correct.1 _ "NVRM: Xback" [] _ [] "xid"
      rfl (by intro g hg; simp at hg) (by simp) (by decide)
  · exact applyFilter_correct.2.1 _ "any line" rfl rfl rfl
  · refine (applyFilter_correct.2.2 _ "Out of memory"
      (by intro g hg; simp at hg) (Or.inl (by simp))).mpr ?_
    constructor
    · exact Or.inr ⟨⟨"oom", fun l => l == "Out of memory"⟩, by simp, by simp⟩
    · intro f hf; simp at hf
  · have h := applyFilter_correct.2.2
      ⟨[], [], [⟨"healthy", fun l => l == "all good"⟩]⟩ "all good"
      (by intro g hg; simp at hg) (Or.inr (by simp))
    cases hx : (applyFilter ⟨[], [], [⟨"healthy", fun l => l == "all good"⟩]⟩
        "all good").1
    · rfl
    · exfalso
      have hbad := (h.mp hx).2 ⟨"healthy", fun l => l == "all good"⟩ (by simp)
      simp at hbad


/-! ## NotSupported driver-error detection (C7) -/

/-- `containsSub pat l` decides whether `pat` occurs as a contiguous
run inside `l`. -/
def containsSub (pat : List Char) : List Char → Bool
  | [] => pat.isEmpty
  | c :: rest => pat.isPrefixOf (c :: rest) || containsSub pat rest

/-- Modelled from the spec: the string-matching part of
`IsNotSupportError` of the nvml query package, whose Go source is not
among the extracted files (only `error_test.go` is). Faithful to §7 of
the spec: a driver error string signals a NotSupported condition when
it contains the two-word token "not supported" case-insensitively; the
substring search makes the check tolerate surrounding whitespace and
embedding in longer text. -/
def IsNotSupportErrorStr (s : String) : Bool :=
  containsSub "not supported".toList (s.toList.map Char.toLower)

theorem containsSub_spec (pat l : List Char) :
    containsSub pat l = true ↔ pat <:+: l := by
  induction l with
  | nil =>
      unfold containsSub
      simp [List.isEmpty_iff]
  | cons c rest ih =>
      unfold containsSub
      rw [List.infix_cons_iff]
      simp [ List.isPrefixOf_iff_prefix, ih]

/-- C7: a driver error string is classified NotSupported exactly when
its lowercasing contains "not supported" as a contiguous substring; in
particular the mixed-case, padded and embedded forms of the tests
match, while "notsupported", unrelated text and the empty string do
not. -/
theorem isNotSupportErrorStr_correct :
    (∀ s : String, IsNotSupportErrorStr s = true ↔
      "not supported".toList <:+: (s.toList.map Char.toLower)) ∧
    IsNotSupportErrorStr "operation is not supported on this device" = true ∧
    IsNotSupportErrorStr "THIS OPERATION IS NOT SUPPORTED" = true ∧
    IsNotSupportErrorStr "Feature Not Supported" = true ∧
    IsNotSupportErrorStr "  not supported  " = true ∧
    IsNotSupportErrorStr "The requested operation is not supported on device 0" = true ∧
    IsNotSupportErrorStr "Some other error" = false ∧
    IsNotSupportErrorStr "" = false ∧
    IsNotSupportErrorStr "notsupported" = false := by
  refine ⟨?_, by decide, by decide, by decide, by decide, by decide,
    by decide, by decide, by decide⟩
  intro s
  exact containsSub_spec _ _

/-- C7 witness: the characterization applied at a concrete driver
message. -/
theorem isNotSupportErrorStr_correct_witness :
    IsNotSupportErrorStr "nvml: Not Supported" = true :=
  (isNotSupportErrorStr_correct.1 "nvml: Not Supported").mpr (by decide)


/-! ## Process-runner option validation (C8, C9)

Shallow embedding of `(*Op).applyOpts` from `pkg/process/options.go`.
The option closures are plain setters, so `applyOpts` is modelled on
the already-applied `Op` value. OS interaction is abstracted:
`commandExists` stands for `exec.LookPath` and `osTempDir` for
`os.TempDir()`. The `labels` map (only defaulted to empty) and the
`outputFile` OS handle are omitted: they play no role in validation.
Go's `strings.Split(args[0], " ")[0]` and `strings.SplitN(env, "=", 2)`
are modelled character-wise (prefix before the first separator); the
Go code would panic on an empty argument vector, which the model
totalizes with the empty string. The restart interval is in
nanoseconds, `0` meaning unset, and the default is `5 * time.Second`. -/

structure RestartConfig where
  Interval : Nat
  deriving DecidableEq, Repr

structure ProcessOp where
  envs : List String
  commandsToRun : List (List String)
  bashScriptContentsToRun : String
  runAsBashScript : Bool
  bashScriptTmpDirectory : String
  bashScriptFilePattern : String
  restartConfig : Option RestartConfig
  deriving DecidableEq, Repr

def DefaultBashScriptFilePattern : String := "gpud-*.bash"

/-- The first space-separated token of a command's first argument. -/
def firstToken (args : List String) : String :=
  String.mk ((args.headD "").toList.takeWhile (fun c => c != ' '))

/-- The text before the first `=` of an environment entry (the entry's
key when it is well-formed). -/
def envKey (env : String) : String :=
  String.mk (env.toList.takeWhile (fun c => c != '='))

/-- `strings.SplitN(env, "=", 2)`: `[key, value]` when the entry has an
`=`, the whole entry alone otherwise. -/
def splitEnv (env : String) : List String :=
  if env.toList.contains '=' then
    [envKey env, String.mk ((env.toList.dropWhile (fun c => c != '=')).tail)]
  else
    [env]

/-- The env-validation loop of `applyOpts`: report the first ill-formed
entry or duplicated key, scanning in order with the set of keys seen so
far. -/
def checkEnvs : List String → List String → Option String
  | _, [] => none
  | seen, env :: rest =>
    match splitEnv env with
    | [k, _] =>
      if k ∈ seen then some ("duplicate environment variable: " ++ k)
      else checkEnvs (k :: seen) rest
    | _ => some ("invalid environment variable format: " ++ env)

/-- `(*Op).applyOpts` after the option closures ran: eager validation,
then defaulting. -/
def applyOpts (commandExists : String → Bool) (osTempDir : String)
    (op : ProcessOp) : Except String ProcessOp :=
  if op.commandsToRun.isEmpty && (op.bashScriptContentsToRun == "") then
    .error "no command(s) or bash script contents provided"
  else if !op.runAsBashScript && decide (1 < op.commandsToRun.length) then
    .error "cannot run multiple commands without a bash script mode"
  else
    match op.commandsToRun.find? (fun args => !commandExists (firstToken args)) with
    | some args => .error ("command not found: \"" ++ firstToken args ++ "\"")
    | none =>
      match checkEnvs [] op.envs with
      | some msg => .error msg
      | none =>
        let op1 := { op with
          restartConfig := match op.restartConfig with
            | some rc => if rc.Interval = 0 then some ⟨5000000000⟩ else some rc
            | none => none }
        let op2 := { op1 with
          runAsBashScript :=
            if !(op1.bashScriptContentsToRun == "") && !op1.runAsBashScript then true
            else op1.runAsBashScript }
        let op3 := { op2 with
          bashScriptTmpDirectory :=
            if op2.bashScriptTmpDirectory == "" then osTempDir
            else op2.bashScriptTmpDirectory }
        let op4 := { op3 with
          bashScriptFilePattern :=
            if op3.bashScriptFilePattern == "" then DefaultBashScriptFilePattern
            else op3.bashScriptFilePattern }
        .ok op4

theorem splitEnv_key (env k v : String) (h : splitEnv env = [k, v]) :
    envKey env = k := by
  unfold splitEnv at h
  by_cases hc : env.toList.contains '='
  · rw [if_pos hc] at h
    exact (List.cons.injEq _ _ _ _ ▸ h).1
  · rw [if_neg hc] at h
    exact absurd (congrArg List.length h) (by simp)

theorem checkEnvs_none_sound (envs : List String) :
    ∀ seen : List String, checkEnvs seen envs = none →
      (envs.map envKey).Nodup ∧ ∀ k ∈ envs.map envKey, k ∉ seen := by
  induction envs with
  | nil => intro seen _; simp
  | cons env rest ih =>
      intro seen h
      unfold checkEnvs at h
      cases hsp : splitEnv env with
      | nil => rw [hsp] at h; exact absurd h (by simp)
      | cons k tl =>
          cases tl with
          | nil => rw [hsp] at h; exact absurd h (by simp)
          | cons v tl2 =>
              cases tl2 with
              | cons _ _ => rw [hsp] at h; exact absurd h (by simp)
              | nil =>
                  rw [hsp] at h
                  simp only at h
                  by_cases hk : k ∈ seen
                  · rw [if_pos hk] at h; exact absurd h (by simp)
                  · rw [if_neg hk] at h
                    rcases ih (k :: seen) h with ⟨hnd, hns⟩
                    have hkey : envKey env = k := splitEnv_key env k v hsp
                    constructor
                    · rw [List.map_cons, List.nodup_cons, hkey]
                      refine ⟨fun hmem => ?_, hnd⟩
                      exact (hns k hmem) (by simp)
                    · intro k' hk'
                      rw [List.map_cons, hkey] at hk'
                      rcases List.mem_cons.mp hk' with rfl | hk'
                      · exact hk
                      · intro hseen
                        exact (hns k' hk') (by simp [hseen])

theorem checkEnvs_wf_shape (envs : List String)
    (hwf : ∀ e ∈ envs, ∃ k v, splitEnv e = [k, v]) :
    ∀ seen : List String, checkEnvs seen envs = none ∨
      ∃ k, checkEnvs seen envs = some ("duplicate environment variable: " ++ k) := by
  induction envs with
  | nil => intro seen; exact Or.inl rfl
  | cons env rest ih =>
      intro seen
      rcases hwf env (by simp) with ⟨k, v, hsp⟩
      unfold checkEnvs
      rw [hsp]
      simp only
      by_cases hk : k ∈ seen
      · rw [if_pos hk]
        exact Or.inr ⟨k, rfl⟩
      · rw [if_neg hk]
        exact ih (fun e he => hwf e (by simp [he])) (k :: seen)

/-- C8: `applyOpts` fails eagerly in each claimed case: more than one
command without bash-script mode yields the multiple-commands
configuration error; a command whose first token does not resolve
causes a failure, and — once the earlier checks pass — exactly the
"command not found" error for the first unresolved token; two
environment entries sharing a key cause a failure, and — once the
earlier checks pass and every entry is well-formed — a
"duplicate environment variable" configuration error. -/
theorem applyOpts_eager_validation (ce : String → Bool) (td : String)
    (op : ProcessOp) :
    (op.runAsBashScript = false → 1 < op.commandsToRun.length →
      applyOpts ce td op =
        .error "cannot run multiple commands without a bash script mode") ∧
    ((∃ args ∈ op.commandsToRun, ce (firstToken args) = false) →
      (applyOpts ce td op).isOk = false) ∧
    (∀ args : List String,
      (op.runAsBashScript = true ∨ op.commandsToRun.length ≤ 1) →
      op.commandsToRun.find? (fun a => !ce (firstToken a)) = some args →
      applyOpts ce td op =
        .error ("command not found: \"" ++ firstToken args ++ "\"")) ∧
    (¬ (op.envs.map envKey).Nodup → (applyOpts ce td op).isOk = false) ∧
    ((op.commandsToRun ≠ [] ∨ op.bashScriptContentsToRun ≠ "") →
      (∀ e ∈ op.envs, ∃ k v, splitEnv e = [k, v]) →
      ¬ (op.envs.map envKey).Nodup →
      (op.runAsBashScript = true ∨ op.commandsToRun.length ≤ 1) →
      (∀ args ∈ op.commandsToRun, ce (firstToken args) = true) →
      ∃ k, applyOpts ce td op =
        .error ("duplicate environment variable: " ++ k)) := by
  have hchk : ¬ (op.envs.map envKey).Nodup → checkEnvs [] op.envs ≠ none := by
    intro hnd hnone
    exact hnd (checkEnvs_none_sound op.envs [] hnone).1
  refine ⟨?_, ?_, ?_, ?_, ?_⟩
  · intro hb hlen
    have hne : op.commandsToRun.isEmpty = false := by
      cases hcmds : op.commandsToRun
      · rw [hcmds] at hlen; simp at hlen
      · rfl
    unfold applyOpts
    rw [hne]
    simp only [Bool.false_and, Bool.false_eq_true, if_false, hb]
    rw [if_pos (by simp [hlen])]
  · intro ⟨args, hmem, hce⟩
    have hfind : op.commandsToRun.find? (fun a => !ce (firstToken a)) ≠ none := by
      intro hnone
      have := List.find?_eq_none.mp hnone args hmem
      rw [hce] at this
      exact this rfl
    unfold applyOpts
    by_cases h1 : (op.commandsToRun.isEmpty && (op.bashScriptContentsToRun == "")) = true
    · rw [if_pos h1]; rfl
    · rw [if_neg h1]
      by_cases h2 : (!op.runAsBashScript && decide (1 < op.commandsToRun.length)) = true
      · rw [if_pos h2]; rfl
      · rw [if_neg h2]
        cases hf : op.commandsToRun.find? (fun a => !ce (firstToken a)) with
        | none => exact absurd hf hfind
        | some args' => rfl
  · intro args hpre hfind
    have h2 : (!op.runAsBashScript && decide (1 < op.commandsToRun.length)) = false := by
      rcases hpre with h | h
      · simp [h]
      · simp [Nat.not_lt.mpr h]
    have h1 : (op.commandsToRun.isEmpty && (op.bashScriptContentsToRun == "")) = false := by
      cases hcmds : op.commandsToRun
      · rw [hcmds] at hfind; exact absurd hfind (by simp)
      · rfl
    unfold applyOpts
    rw [h1, h2]
    simp only [Bool.false_eq_true, if_false]
    rw [hfind]
  · intro hnd
    have hc := hchk hnd
    unfold applyOpts
    by_cases h1 : (op.commandsToRun.isEmpty && (op.bashScriptContentsToRun == "")) = true
    · rw [if_pos h1]; rfl
    · rw [if_neg h1]
      by_cases h2 : (!op.runAsBashScript && decide (1 < op.commandsToRun.length)) = true
      · rw [if_pos h2]; rfl
      · rw [if_neg h2]
        cases hf : op.commandsToRun.find? (fun a => !ce (firstToken a)) with
        | some args' => rfl
        | none =>
            cases hcv : checkEnvs [] op.envs with
            | some msg => rfl
            | none => exact absurd hcv hc
  · intro hnonempty hwf hnd hpre hall
    rcases checkEnvs_wf_shape op.envs hwf [] with hnone | ⟨k, hdup⟩
    · exact absurd hnone (hchk hnd)
    · refine ⟨k, ?_⟩
      have hfind : op.commandsToRun.find? (fun a => !ce (firstToken a)) = none := by
        apply List.find?_eq_none.mpr
        intro a ha
        rw [hall a ha]
        simp
      have h2 : (!op.runAsBashScript && decide (1 < op.commandsToRun.length)) = false := by
        rcases hpre with h | h
        · simp [h]
        · simp [Nat.not_lt.mpr h]
      have h1 : (op.commandsToRun.isEmpty && (op.bashScriptContentsToRun == "")) = false := by
        rcases hnonempty with h | h
        · cases hcmds : op.commandsToRun
          · exact absurd hcmds h
          · rfl
        · have hb : (op.bashScriptContentsToRun == "") = false := by
            cases hx : op.bashScriptContentsToRun == ""
            · rfl
            · exact absurd (by exact eq_of_beq hx) h
          simp [hb]
      unfold applyOpts
      rw [h1, h2]
      simp only [Bool.false_eq_true, if_false]
      rw [hfind, hdup]


/-- A baseline option set used to instantiate the validation theorems:
one resolvable command, no script, no envs. -/
def opBaseline : ProcessOp :=
  { envs := []
    commandsToRun := [["echo", "hello"]]
    bashScriptContentsToRun := ""
    runAsBashScript := false
    bashScriptTmpDirectory := ""
    bashScriptFilePattern := ""
    restartConfig := none }

/-- C8 witness: two commands without script mode yield the
multiple-commands error; an unresolvable command yields the
command-not-found error; duplicate `PATH` entries yield a duplicate
environment-variable error. -/
theorem applyOpts_eager_validation_witness :
    applyOpts (fun _ => true) "/tmp"
        { opBaseline with commandsToRun := [["echo", "a"], ["echo", "b"]] } =
      .error "cannot run multiple commands without a bash script mode" ∧
    (applyOpts (fun _ => false) "/tmp" opBaseline).isOk = false ∧
    applyOpts (fun _ => false) "/tmp" opBaseline =
      .error ("command not found: \"echo\"") ∧
    (applyOpts (fun _ => true) "/tmp"
        { opBaseline with envs := ["PATH=/bin", "PATH=/sbin"] }).isOk = false ∧
    (∃ k, applyOpts (fun _ => true) "/tmp"
        { opBaseline with envs := ["PATH=/bin", "PATH=/sbin"] } =
      .error ("duplicate environment variable: " ++ k)) := by
  refine ⟨?_, ?_, ?_, ?_, ?_⟩
  · exact (applyOpts_eager_validation (fun _ => true) "/tmp"
      { opBaseline with commandsToRun := [["echo", "a"], ["echo", "b"]] }).1
      rfl (by decide)
  · exact (applyOpts_eager_validation (fun _ => false) "/tmp" opBaseline).2.1
      ⟨["echo", "hello"], by decide, rfl⟩
  · exact (applyOpts_eager_validation (fun _ => false) "/tmp" opBaseline).2.2.1
      ["echo", "hello"] (Or.inr (by decide)) (by decide)
  · exact (applyOpts_eager_validation (fun _ => true) "/tmp"
      { opBaseline with envs := ["PATH=/bin", "PATH=/sbin"] }).2.2.2.1
      (by decide)
  · refine (applyOpts_eager_validation (fun _ => true) "/tmp"
      { opBaseline with envs := ["PATH=/bin", "PATH=/sbin"] }).2.2.2.2
      (Or.inl (by decide)) ?_ (by decide) (Or.inr (by decide)) (by decide)
    intro e he
    simp only [List.mem_cons, List.not_mem_nil, or_false] at he
    rcases he with rfl | rfl
    · exact ⟨"PATH", "/bin", by decide⟩
    · exact ⟨"PATH", "/sbin", by decide⟩

/-- The C9 option set: two commands, a multi-line bash script body, and
no explicit script-mode request. -/
def opTwoCmdsWithScript : ProcessOp :=
  { envs := []
    commandsToRun := [["echo", "hello"], ["echo", "world"]]
    bashScriptContentsToRun := "echo hello\necho world"
    runAsBashScript := false
    bashScriptTmpDirectory := ""
    bashScriptFilePattern := ""
    restartConfig := none }

/-- C9 counterexample: more than one command together with a multi-line
script body and no explicit script-mode request does NOT pass
validation — `applyOpts` rejects it with the multiple-commands
configuration error, because the implicit script-mode promotion happens
only after that check. -/
theorem applyOpts_implicit_script_counterexample :
    applyOpts (fun _ => true) "/tmp" opTwoCmdsWithScript =
      .error "cannot run multiple commands without a bash script mode" := rfl

/-- C9 (amended): a non-empty script body implicitly enables script
mode — whenever `applyOpts` succeeds, the resulting configuration has
`runAsBashScript` set — but the promotion happens after validation, so
supplying more than one command with a script body and no explicit
script-mode request still fails with the multiple-commands
configuration error. -/
theorem applyOpts_implicit_script_mode (ce : String → Bool) (td : String)
    (op : ProcessOp) :
    (∀ op' : ProcessOp, applyOpts ce td op = .ok op' →
      op.bashScriptContentsToRun ≠ "" → op'.runAsBashScript = true) ∧
    (op.bashScriptContentsToRun ≠ "" → op.runAsBashScript = false →
      1 < op.commandsToRun.length →
      applyOpts ce td op =
        .error "cannot run multiple commands without a bash script mode") := by
  constructor
  · intro op' hok hne
    have hb : (op.bashScriptContentsToRun == "") = false := by
      cases hx : op.bashScriptContentsToRun == ""
      · rfl
      · exact absurd (by exact eq_of_beq hx) hne
    unfold applyOpts at hok
    by_cases h1 : (op.commandsToRun.isEmpty && (op.bashScriptContentsToRun == "")) = true
    · rw [if_pos h1] at hok; exact absurd hok (by simp)
    · rw [if_neg h1] at hok
      by_cases h2 : (!op.runAsBashScript && decide (1 < op.commandsToRun.length)) = true
      · rw [if_pos h2] at hok; exact absurd hok (by simp)
      · rw [if_neg h2] at hok
        cases hf : op.commandsToRun.find? (fun a => !ce (firstToken a)) with
        | some args => rw [hf] at hok; exact absurd hok (by simp)
        | none =>
            rw [hf] at hok
            cases hcv : checkEnvs [] op.envs with
            | some msg => rw [hcv] at hok; exact absurd hok (by simp)
            | none =>
                rw [hcv] at hok
                simp only [Except.ok.injEq] at hok
                subst hok
                simp only [hb, Bool.not_false, Bool.true_and]
                cases hr : op.runAsBashScript <;> simp
  · intro hne hb hlen
    have hempty : op.commandsToRun.isEmpty = false := by
      cases hcmds : op.commandsToRun
      · rw [hcmds] at hlen; simp at hlen
      · rfl
    unfold applyOpts
    rw [hempty]
    simp only [Bool.false_and, Bool.false_eq_true, if_false, hb]
    rw [if_pos (by simp [hlen])]

/-- The configuration produced from a single command plus an implicit
script body: validation succeeds and script mode is on. -/
def opOneCmdWithScript : ProcessOp :=
  { opTwoCmdsWithScript with commandsToRun := [["echo", "hello"]] }

/-- C9 witness: with a single command the same script body passes
validation and script mode is implicitly enabled; with two commands the
multiple-commands error fires. -/
theorem applyOpts_implicit_script_mode_witness :
    (∃ op' : ProcessOp, applyOpts (fun _ => true) "/tmp" opOneCmdWithScript = .ok op' ∧
      op'.runAsBashScript = true) ∧
    applyOpts (fun _ => true) "/tmp" opTwoCmdsWithScript =
      .error "cannot run multiple commands without a bash script mode" := by
  constructor
  · refine ⟨{ opOneCmdWithScript with
        runAsBashScript := true
        bashScriptTmpDirectory := "/tmp"
        bashScriptFilePattern := DefaultBashScriptFilePattern }, rfl, ?_⟩
    exact (applyOpts_implicit_script_mode (fun _ => true) "/tmp"
      opOneCmdWithScript).1 _ rfl (by decide)
  · exact (applyOpts_implicit_script_mode (fun _ => true) "/tmp"
      opTwoCmdsWithScript).2 (by decide) rfl (by decide)

end Gpud
